import Mathlib

/-!
Verification development for the object-pool module
(`object_pool/pool.py`, `object_pool/exception.py`).

The Python code is shallowly embedded as executable Lean definitions.
Resources are represented by natural-number identities; the external
`Manager` (create / recycle / discard) is modelled by boolean outcome
parameters (`createOk`, `recycleOk`, `discardOk`) saying whether the
corresponding call raises, and manager invocations are recorded in an
explicit call trace so that "destroy is called exactly once" style
properties can be stated.
-/

namespace ObjectPool

/-- Errors of `object_pool/exception.py`, plus Python's `TypeError`
(which `Pool.__init__` can raise via the comparison `max_size <= 0`
when `max_size` is `None`). -/
inductive PErr
  | typeError
  | valueError
  | poolFullError
  | poolClosedError
  deriving DecidableEq, Repr

/-- Constant `DEFAULT_SIZE = 10` (pool.py line 15). -/
def DEFAULT_SIZE : Int := 10

/-- Embedding of `Pool.__init__` (pool.py lines 91-102), restricted to the `max_size`
validation and defaulting logic; returns the effective max size.

Source:
```
if max_size <= 0:
    raise ValueError("max_size must be at least 1")
max_size = max_size or DEFAULT_SIZE
```
When `max_size` is `None` (the default), Python evaluates `None <= 0`,
which raises `TypeError` before the `or DEFAULT_SIZE` line is reached.
When `max_size` is an `int`, `max_size or DEFAULT_SIZE` yields
`DEFAULT_SIZE` exactly when `max_size` is falsy, i.e. `0`. -/
def poolInit (max_size : Option Int) : Except PErr Int :=
  match max_size with
  | none => .error .typeError
  | some n =>
    if n ≤ 0 then .error .valueError
    else .ok (if n = 0 then DEFAULT_SIZE else n)

/-- A recorded invocation of the external `Manager`.  The `Bool` on
`recycle`/`discard` records whether that call raised (`true` = returned
normally). -/
inductive MCall
  | create (obj : Nat)
  | recycle (obj : Nat) (ok : Bool)
  | discard (obj : Nat) (ok : Bool)
  deriving DecidableEq, Repr

/-- The state of one pool generation (`PoolState`, pool.py lines 49-81),
as seen by a single thread of the sequential embedding.

* `isOpen`     — the `is_open` `Event`;
* `countAvail` — free permits of the `BoundedSemaphore count`
  (initially `max_size`);
* `idle`       — the `SimpleQueue idle` as a FIFO list (get from the
  head, put at the tail), resources as `Nat` identities.

The last two fields are instrumentation of the embedding, not fields of
the Python object: `borrowed` lists the resources currently yielded to
borrowers (the Python pool tracks these only implicitly, by the borrower
holding the reference), and `nextId` is the identity supply for
`Manager.create`. -/
structure PoolSt where
  isOpen : Bool
  countAvail : Nat
  idle : List Nat
  borrowed : List Nat
  nextId : Nat
  deriving DecidableEq, Repr

/-- Embedding of `Pool.__init_state` (pool.py lines 104-110): event unset, semaphore
full, queue empty. -/
def initState (maxSize : Nat) : PoolSt :=
  { isOpen := false, countAvail := maxSize, idle := [], borrowed := [], nextId := 0 }

/-- Embedding of `Pool.open` (pool.py lines 120-123): sets the `is_open` event. -/
def openPool (s : PoolSt) : PoolSt :=
  { s with isOpen := true }

/-- A freshly constructed pool after `open()`: the start state of every
operation sequence considered below. -/
def initOpen (maxSize : Nat) : PoolSt :=
  openPool (initState maxSize)

/-- Outcome of one iteration of the `while True` loop in `Pool.acquire`
(pool.py lines 155-180).  `wait` means the iteration reached
`state.lock.wait()`: the caller blocks on the condition variable and,
when woken, runs another iteration from the top of the loop. -/
inductive AcqOutcome
  | ok (obj : Nat) (s : PoolSt) (calls : List MCall)
  | closedErr
  | fullErr (s : PoolSt) (calls : List MCall)
  | wait (s : PoolSt)
  deriving DecidableEq, Repr

/-- One iteration of the acquire loop (pool.py lines 155-180).
`createOk` says whether `self.__manager.create()` returns normally.

Source order: check `is_open` (raise `PoolClosedError` if clear); try
`idle.get_nowait()`; try `count.acquire(blocking=False)` and on success
call `create()` — on a create failure the permit is released again and
`PoolFullError` is raised; otherwise wait on `state.lock`. -/
def acquireIter (createOk : Bool) (s : PoolSt) : AcqOutcome :=
  if !s.isOpen then .closedErr
  else
    match s.idle with
    | obj :: rest =>
      .ok obj { s with idle := rest, borrowed := s.borrowed ++ [obj] } []
    | [] =>
      if 0 < s.countAvail then
        let s1 := { s with countAvail := s.countAvail - 1 }
        if createOk then
          .ok s1.nextId
            { s1 with nextId := s1.nextId + 1, borrowed := s1.borrowed ++ [s1.nextId] }
            [.create s1.nextId]
        else
          .fullErr { s1 with countAvail := s1.countAvail + 1 } []
      else .wait s

/-- Result of the release path (the `finally` block of `Pool.acquire`,
pool.py lines 184-206).

`raised` records whether any exception escapes to the borrower: the
body's `try`/`except Exception` catches the internal `PoolClosedError`
and any `recycle()` failure, and the nested `try`/`except Exception`
catches any `discard()` failure, so no branch of the embedding sets it.
`notified` records the trailing `finally: with state.lock:
state.lock.notify()`. -/
structure RelOut where
  s : PoolSt
  calls : List MCall
  notified : Bool
  raised : Bool
  deriving DecidableEq, Repr

/-- The release path of `Pool.acquire` (pool.py lines 184-206), run when
the borrowing scope exits.  `recycleOk` / `discardOk` say whether the
corresponding manager call returns normally.

Source: if `is_open` is clear, raise `PoolClosedError`; else call
`recycle(obj)`; re-check `is_open` (raise `PoolClosedError` if clear);
else `idle.put(obj)`.  Any of those exceptions lands in
`except Exception`, which calls `discard(obj)` (its own errors swallowed
and logged) and then `count.release()`.  In every case the trailing
`finally` notifies one waiter. -/
def releaseObj (recycleOk discardOk : Bool) (obj : Nat) (s : PoolSt) : RelOut :=
  let borrowed' := s.borrowed.erase obj
  if !s.isOpen then
    { s := { s with countAvail := s.countAvail + 1, borrowed := borrowed' },
      calls := [.discard obj discardOk], notified := true, raised := false }
  else if !recycleOk then
    { s := { s with countAvail := s.countAvail + 1, borrowed := borrowed' },
      calls := [.recycle obj false, .discard obj discardOk],
      notified := true, raised := false }
  else if !s.isOpen then
    { s := { s with countAvail := s.countAvail + 1, borrowed := borrowed' },
      calls := [.recycle obj true, .discard obj discardOk],
      notified := true, raised := false }
  else
    { s := { s with idle := s.idle ++ [obj], borrowed := borrowed' },
      calls := [.recycle obj true], notified := true, raised := false }

/-- A pool operation issued by some borrower thread, for sequential
operation sequences: an acquire attempt (with the outcome of a possible
`create()` call), or the scope-exit release of a currently borrowed
resource (with the outcomes of `recycle()` and `discard()`). -/
inductive Op
  | acq (createOk : Bool)
  | rel (obj : Nat) (recycleOk : Bool) (discardOk : Bool)
  deriving DecidableEq, Repr

/-- Effect of one operation on the pool state, with the manager calls it
makes.  A failed acquire (`PoolClosedError`, `PoolFullError`) and a
blocked acquire leave the state as the code leaves it; a release of an
object that is not currently borrowed cannot be issued (the scoped
`with pool.acquire()` protocol releases each borrowed object exactly
once), so it is a no-op here. -/
def stepOp (s : PoolSt) (op : Op) : PoolSt × List MCall :=
  match op with
  | .acq createOk =>
    match acquireIter createOk s with
    | .ok _ s' calls => (s', calls)
    | .closedErr => (s, [])
    | .fullErr s' calls => (s', calls)
    | .wait s' => (s', [])
  | .rel obj recycleOk discardOk =>
    if obj ∈ s.borrowed then
      let r := releaseObj recycleOk discardOk obj s
      (r.s, r.calls)
    else (s, [])

/-- Run a sequence of operations from a state, accumulating the trace of
manager calls. -/
def runOps (s : PoolSt) : List Op → PoolSt × List MCall
  | [] => (s, [])
  | op :: ops =>
    let p := stepOp s op
    let q := runOps p.1 ops
    (q.1, p.2 ++ q.2)

/-- Capacity accounting invariant: live resources (idle or borrowed)
plus free semaphore permits add up to `max_size`. -/
def CapInv (maxSize : Nat) (s : PoolSt) : Prop :=
  s.idle.length + s.borrowed.length + s.countAvail = maxSize

/-! ### `Pool.close` (pool.py lines 125-145)

```
if not state.is_open.is_set():
    return
self.__init_state()
state.is_open.clear()
while True:
    try:
        pass
    except queue.Empty:
        break
    except Exception:
        logger...warning("Discard error, possible resource leak")
with state.lock:
    state.lock.notify_all()
```

The body of the `while True` loop is `pass`: it raises nothing, so the
`except queue.Empty: break` clause never runs and the loop never exits.
We embed the loop with an explicit iteration count (`fuel`) and record
the `discard` calls performed so far. -/

/-- Outcome of running `Pool.close` for at most `fuel` iterations of its
drain loop: either the call returned (carrying the `discard` calls made
and whether `notify_all` was reached), or it is still inside the loop. -/
inductive CloseOutcome
  | returned (calls : List MCall) (notifiedAll : Bool)
  | stillLooping (calls : List MCall)
  deriving DecidableEq, Repr

/-- The drain loop of `Pool.close`: one iteration executes `pass`, which
raises no exception, so neither `except` clause fires and the loop
continues with no `discard` performed. -/
def closeDrainLoop (calls : List MCall) : Nat → CloseOutcome
  | 0 => .stillLooping calls
  | fuel + 1 => closeDrainLoop calls fuel

/-- Embedding of `Pool.close` (pool.py lines 125-145) on a generation whose idle
queue holds `idle`, allowed `fuel` iterations of the drain loop.  On an
already-closed pool it returns at once (no discards, no notify). -/
def closeRun (s : PoolSt) (fuel : Nat) : CloseOutcome :=
  if !s.isOpen then .returned [] false
  else closeDrainLoop [] fuel

/-! ### Two-thread interleaving model of acquire vs. release

`Pool.acquire` consults `idle` and `count` *outside* the critical
section of `state.lock` and only then enters `with state.lock:
state.lock.wait()`.  To settle the concurrency claim we model one
releasing borrower (thread A, running the release path with a
successful `recycle`) and one concurrent acquirer (thread B, running
the acquire loop) over the shared generation state, each as a small
program-counter machine whose steps are the individual statements of
the Python source that touch shared state. -/

/-- Thread identifiers: `ta` = the borrower releasing object `0`,
`tb` = the concurrent acquirer. -/
inductive Tid
  | ta
  | tb
  deriving DecidableEq, Repr

/-- Program counter of the releasing thread A inside the `finally`
block of `Pool.acquire` (pool.py lines 184-206), successful-recycle
path: `recycle(obj)`; `idle.put(obj)`; then `with state.lock:
state.lock.notify()`. -/
inductive APC
  | recycleCall
  | idlePut
  | lockAcq
  | notifyOne
  | lockRel
  | adone
  deriving DecidableEq, Repr

/-- Program counter of the acquiring thread B inside the `while True`
loop of `Pool.acquire` (pool.py lines 155-180): check `is_open`; try
`idle.get_nowait()`; try `count.acquire(blocking=False)` (a successful
reservation is followed by a successful `create()`); else
`with state.lock: state.lock.wait()` — `wait` releases the lock and
joins the wait set, and a woken waiter must reacquire the lock before
`wait` returns and the `with` block exits back to the top of the loop. -/
inductive BPC
  | checkOpen
  | idleTryGet
  | countTryAcq
  | lockEnter
  | condWait
  | waitingBlocked
  | wakeReacquire
  | afterWaitExit
  | gotObj
  | raisedClosed
  deriving DecidableEq, Repr

/-- Shared generation state plus both threads' control state.  `bObj`
is the resource B obtained, once it has one. -/
structure SysConfig where
  isOpen : Bool
  idle : List Nat
  countAvail : Nat
  lockHeld : Bool
  apc : APC
  bpc : BPC
  bObj : Option Nat
  nextId : Nat
  deriving DecidableEq, Repr

/-- One atomic step of the chosen thread; `none` when that thread has no
enabled step (it terminated, is blocked on `state.lock`, or sits in the
condition variable's wait set, which only a `notify` can leave). -/
def sysStep (c : SysConfig) : Tid → Option SysConfig
  | .ta =>
    match c.apc with
    | .recycleCall => some { c with apc := .idlePut }
    | .idlePut => some { c with idle := c.idle ++ [0], apc := .lockAcq }
    | .lockAcq =>
      if c.lockHeld then none
      else some { c with lockHeld := true, apc := .notifyOne }
    | .notifyOne =>
      some { c with
             apc := .lockRel
             bpc := if c.bpc = .waitingBlocked then .wakeReacquire else c.bpc }
    | .lockRel => some { c with lockHeld := false, apc := .adone }
    | .adone => none
  | .tb =>
    match c.bpc with
    | .checkOpen =>
      some (if c.isOpen then { c with bpc := .idleTryGet }
            else { c with bpc := .raisedClosed })
    | .idleTryGet =>
      match c.idle with
      | obj :: rest => some { c with idle := rest, bpc := .gotObj, bObj := some obj }
      | [] => some { c with bpc := .countTryAcq }
    | .countTryAcq =>
      if 0 < c.countAvail then
        some { c with
               countAvail := c.countAvail - 1
               bpc := .gotObj
               bObj := some c.nextId
               nextId := c.nextId + 1 }
      else some { c with bpc := .lockEnter }
    | .lockEnter =>
      if c.lockHeld then none
      else some { c with lockHeld := true, bpc := .condWait }
    | .condWait => some { c with lockHeld := false, bpc := .waitingBlocked }
    | .waitingBlocked => none
    | .wakeReacquire =>
      if c.lockHeld then none
      else some { c with lockHeld := true, bpc := .afterWaitExit }
    | .afterWaitExit => some { c with lockHeld := false, bpc := .checkOpen }
    | .gotObj => none
    | .raisedClosed => none

/-- Run a schedule (a list of thread choices); `none` if a scheduled
thread had no enabled step at its turn. -/
def runSched (c : SysConfig) : List Tid → Option SysConfig
  | [] => some c
  | t :: ts =>
    match sysStep c t with
    | some c' => runSched c' ts
    | none => none

/-- Start configuration for `max_size = 1`: the pool is open, thread A
has borrowed the single resource (object `0`, so `idle` is empty and
the capacity semaphore is exhausted) and is about to release it; thread
B is entering the acquire loop. -/
def lostWakeupInit : SysConfig :=
  { isOpen := true, idle := [], countAvail := 0, lockHeld := false,
    apc := .recycleCall, bpc := .checkOpen, bObj := none, nextId := 1 }

/-- The interleaving that loses A's wakeup: B finds `idle` empty and
`count` exhausted; before B reaches `state.lock.wait()`, A completes the
whole release — `idle.put`, and `notify()` with nobody in the wait set;
only then does B enter the lock and wait. -/
def lostWakeupSched : List Tid :=
  [.tb, .tb, .tb, .ta, .ta, .ta, .ta, .ta, .tb, .tb]

/-! ## Theorems -/

/-- The drain loop of `Pool.close` never exits and never adds a
`discard` call, no matter how many iterations it is given. -/
theorem closeDrainLoop_stillLooping (calls : List MCall) :
    ∀ fuel, closeDrainLoop calls fuel = .stillLooping calls := by
  intro fuel
  induction fuel with
  | zero => rfl
  | succ n ih => simpa [closeDrainLoop] using ih

/-- C1: the claim fails on the code.  On an open pool, `Pool.close`
enters `while True: try: pass except queue.Empty: break ...`; the loop
body raises nothing, so the `break` is unreachable: for every number of
loop iterations, `close()` is still looping, has issued no `destroy`
(discard) call for any idle resource, and has not reached the
`notify_all` that would wake blocked waiters — so `close()` does not
terminate, idle resources are never destroyed, and waiters are never
woken. -/
theorem close_open_pool_never_drains (s : PoolSt) (fuel : Nat) (h : s.isOpen = true) :
    closeRun s fuel = .stillLooping [] := by
  simp [closeRun, h, closeDrainLoop_stillLooping]

/-- C1 witness: an open pool with two idle resources; after 1000 drain
iterations `close()` has neither returned nor discarded anything. -/
theorem close_open_pool_never_drains_witness :
    closeRun { isOpen := true, countAvail := 0, idle := [0, 1], borrowed := [], nextId := 2 }
      1000 = .stillLooping [] :=
  close_open_pool_never_drains
    { isOpen := true, countAvail := 0, idle := [0, 1], borrowed := [], nextId := 2 }
    1000 rfl

/-- C2: the claim fails on the code.  Constructing a `Pool` without
supplying `max_size` leaves `max_size = None`, and `__init__` evaluates
`None <= 0`, which raises `TypeError` before the
`max_size or DEFAULT_SIZE` defaulting line runs: no pool is constructed
at all, in particular none with maximum 10. -/
theorem init_without_max_size_type_error :
    poolInit none = .error .typeError ∧ poolInit none ≠ .ok DEFAULT_SIZE :=
  ⟨rfl, by simp [poolInit]⟩

/-- C3: the claim fails on the code.  With `max_size = 1`, thread A
holding the single resource and thread B acquiring: B finds `idle`
empty and the capacity semaphore exhausted — both checks made outside
`state.lock` — and before B reaches `state.lock.wait()`, A completes
its entire release (puts the resource back on `idle` and `notify()`s
with an empty wait set).  B then waits.  The resulting configuration
has A terminated, B in the condition variable's wait set, the resource
sitting idle, and no thread with an enabled step: the wakeup is lost
and B blocks forever instead of being woken to take the resource. -/
theorem lost_wakeup_stuck :
    runSched lostWakeupInit lostWakeupSched =
      some { isOpen := true, idle := [0], countAvail := 0, lockHeld := false,
             apc := .adone, bpc := .waitingBlocked, bObj := none, nextId := 1 } ∧
    sysStep { isOpen := true, idle := [0], countAvail := 0, lockHeld := false,
              apc := .adone, bpc := .waitingBlocked, bObj := none, nextId := 1 } .ta = none ∧
    sysStep { isOpen := true, idle := [0], countAvail := 0, lockHeld := false,
              apc := .adone, bpc := .waitingBlocked, bObj := none, nextId := 1 } .tb = none := by
  decide

/-- C4: confirmed.  In the acquire loop, when the pool is open, the
idle queue is empty and a capacity permit is available but the
manager's `create()` raises, the bare `except:` releases the reserved
permit and raises `PoolFullError`: the outcome is `fullErr` with the
pool state exactly as before the attempt (the permit is back), and the
result type offers no distinct construction-error outcome. -/
theorem create_failure_degrades_to_full (s : PoolSt)
    (h1 : s.isOpen = true) (h2 : s.idle = []) (h3 : 0 < s.countAvail) :
    acquireIter false s = .fullErr s [] := by
  obtain ⟨o, c, i, b, n⟩ := s
  subst h2
  simp only at h1 h3
  subst h1
  have hc : c - 1 + 1 = c := Nat.succ_pred_eq_of_pos h3
  simp [acquireIter, h3, hc]

/-- C4 witness: open pool of size 2, nothing idle, `create()` fails. -/
theorem create_failure_degrades_to_full_witness :
    acquireIter false { isOpen := true, countAvail := 2, idle := [], borrowed := [], nextId := 0 } =
      .fullErr { isOpen := true, countAvail := 2, idle := [], borrowed := [], nextId := 0 } [] :=
  create_failure_degrades_to_full
    { isOpen := true, countAvail := 2, idle := [], borrowed := [], nextId := 0 }
    rfl rfl (by decide)

/-- C5: confirmed.  Releasing a borrowed resource whose `recycle()`
raises routes to the discard path: exactly the calls
`recycle(obj)` (failing) then `discard(obj)` are made (so `discard` is
invoked exactly once on that resource), the resource does not return to
`idle`, and exactly one capacity permit is released.  In the spec's
`max_size = 1` scenario, the run acquire / release-with-failed-recycle /
acquire makes exactly the calls create(0), recycle(0) (failed),
discard(0), create(1): the second acquire constructs a fresh resource
instead of blocking, and a further acquire then blocks (exactly one
reclaimed slot). -/
theorem recycle_failure_reclaims_capacity (s : PoolSt) (obj : Nat) (dOk : Bool)
    (h : s.isOpen = true) :
    (releaseObj false dOk obj s).s.countAvail = s.countAvail + 1 ∧
    (releaseObj false dOk obj s).calls = [.recycle obj false, .discard obj dOk] ∧
    (releaseObj false dOk obj s).s.idle = s.idle ∧
    runOps (initOpen 1) [.acq true, .rel 0 false true, .acq true, .acq true] =
      ({ isOpen := true, countAvail := 0, idle := [], borrowed := [1], nextId := 2 },
       [.create 0, .recycle 0 false, .discard 0 true, .create 1]) := by
  refine ⟨?_, ?_, ?_, by decide⟩ <;> simp [releaseObj, h]

/-- C5 witness: the `max_size = 1` scenario state right after the first
acquire (object 0 borrowed, no free permit), released with a failing
`recycle`. -/
theorem recycle_failure_reclaims_capacity_witness :
    (releaseObj false true 0
        { isOpen := true, countAvail := 0, idle := [], borrowed := [0], nextId := 1 }).s.countAvail = 0 + 1 ∧
    (releaseObj false true 0
        { isOpen := true, countAvail := 0, idle := [], borrowed := [0], nextId := 1 }).calls =
      [.recycle 0 false, .discard 0 true] ∧
    (releaseObj false true 0
        { isOpen := true, countAvail := 0, idle := [], borrowed := [0], nextId := 1 }).s.idle = [] ∧
    runOps (initOpen 1) [.acq true, .rel 0 false true, .acq true, .acq true] =
      ({ isOpen := true, countAvail := 0, idle := [], borrowed := [1], nextId := 2 },
       [.create 0, .recycle 0 false, .discard 0 true, .create 1]) :=
  recycle_failure_reclaims_capacity
    { isOpen := true, countAvail := 0, idle := [], borrowed := [0], nextId := 1 } 0 true rfl

/-- C6: confirmed.  Every iteration of the acquire loop — the initial
entry and each re-entry after waking from `state.lock.wait()` — begins
with the `is_open` check, and on a closed generation it raises
`PoolClosedError` regardless of the idle queue, capacity or the
`create()` outcome.  In the thread model, a waiter woken while the
generation is closed reacquires the lock, exits the `wait`, loops to
the top, and terminates in the `PoolClosedError` state rather than
obtaining a resource. -/
theorem acquire_closed_raises (s : PoolSt) (createOk : Bool) (c : SysConfig)
    (h : s.isOpen = false) (h1 : c.bpc = .wakeReacquire) (h2 : c.lockHeld = false)
    (h3 : c.isOpen = false) :
    acquireIter createOk s = .closedErr ∧
    runSched c [.tb, .tb, .tb] = some { c with bpc := .raisedClosed } := by
  obtain ⟨o, ci, ca, lh, ap, bp, bo, ni⟩ := c
  simp only at h1 h2 h3
  subst h1; subst h2; subst h3
  exact ⟨by simp [acquireIter, h], by simp [runSched, sysStep]⟩

/-- C6 witness: a closed generation state, and a woken waiter of a
closed generation. -/
theorem acquire_closed_raises_witness :
    acquireIter true { isOpen := false, countAvail := 0, idle := [7], borrowed := [], nextId := 8 } =
      .closedErr ∧
    runSched { isOpen := false, idle := [], countAvail := 0, lockHeld := false,
               apc := .adone, bpc := .wakeReacquire, bObj := none, nextId := 0 }
        [.tb, .tb, .tb] =
      some { isOpen := false, idle := [], countAvail := 0, lockHeld := false,
             apc := .adone, bpc := .raisedClosed, bObj := none, nextId := 0 } :=
  acquire_closed_raises
    { isOpen := false, countAvail := 0, idle := [7], borrowed := [], nextId := 8 } true
    { isOpen := false, idle := [], countAvail := 0, lockHeld := false,
      apc := .adone, bpc := .wakeReacquire, bObj := none, nextId := 0 }
    rfl rfl rfl rfl

/-- C7: confirmed.  The release path never raises to the borrower
(every exception from the internal `PoolClosedError`, from `recycle()`
and from `discard()` is caught), the trailing `finally` always notifies
a waiter, a `discard()` failure changes nothing about the resulting
pool state (it is swallowed and only logged), and on every discard path
(closed generation or failed recycle) exactly one capacity permit is
released, while the successful-recycle path releases none. -/
theorem release_never_raises (s : PoolSt) (obj : Nat) (recycleOk discardOk : Bool) :
    (releaseObj recycleOk discardOk obj s).raised = false ∧
    (releaseObj recycleOk discardOk obj s).notified = true ∧
    (releaseObj recycleOk discardOk obj s).s = (releaseObj recycleOk true obj s).s ∧
    (releaseObj recycleOk discardOk obj s).s.countAvail =
      (if s.isOpen && recycleOk then s.countAvail else s.countAvail + 1) := by
  obtain ⟨o, c, i, b, n⟩ := s
  cases o <;> cases recycleOk <;> simp [releaseObj]

/-- Each single pool operation preserves the capacity accounting
invariant `count(idle) + count(borrowed) + free permits = max_size`. -/
theorem capInv_stepOp (maxSize : Nat) (s : PoolSt) (op : Op) (h : CapInv maxSize s) :
    CapInv maxSize (stepOp s op).1 := by
  obtain ⟨o, c, i, b, n⟩ := s
  simp only [CapInv] at h ⊢
  cases op with
  | acq createOk =>
    cases o with
    | false => simpa [stepOp, acquireIter] using h
    | true =>
      cases i with
      | cons obj rest => simp [stepOp, acquireIter] at h ⊢; omega
      | nil =>
        by_cases hc : 0 < c
        · cases createOk <;> simp [stepOp, acquireIter, hc] at h ⊢ <;> omega
        · simp [stepOp, acquireIter, hc] at h ⊢; omega
  | rel obj recycleOk discardOk =>
    by_cases hm : obj ∈ b
    · have hb : 0 < b.length := List.length_pos.mpr (List.ne_nil_of_mem hm)
      have he : (b.erase obj).length = b.length - 1 := List.length_erase_of_mem hm
      cases o <;> cases recycleOk <;>
        simp [stepOp, releaseObj, hm, he] at h ⊢ <;> omega
    · simpa [stepOp, hm] using h

/-- The capacity invariant is preserved along any operation sequence. -/
theorem capInv_runOps (maxSize : Nat) :
    ∀ (ops : List Op) (s : PoolSt), CapInv maxSize s → CapInv maxSize (runOps s ops).1 := by
  intro ops
  induction ops with
  | nil => intro s h; simpa [runOps] using h
  | cons op ops ih =>
    intro s h
    simpa [runOps] using ih _ (capInv_stepOp maxSize s op h)

/-- C8: confirmed.  For every sequence of acquire and release
operations run from a freshly opened pool, the number of idle resources
plus the number of borrowed resources never exceeds `max_size`: each
live resource holds one permit of the `BoundedSemaphore`, so
`idle + borrowed + free permits = max_size` is invariant. -/
theorem idle_plus_borrowed_le_max (maxSize : Nat) (ops : List Op) :
    (runOps (initOpen maxSize) ops).1.idle.length +
      (runOps (initOpen maxSize) ops).1.borrowed.length ≤ maxSize := by
  have h0 : CapInv maxSize (initOpen maxSize) := by
    simp [CapInv, initOpen, openPool, initState]
  have h := capInv_runOps maxSize ops (initOpen maxSize) h0
  simp only [CapInv] at h
  omega

/-- C9: confirmed.  On a freshly opened pool (any positive
`max_size`), acquire constructs and returns object 0 with a single
`create` call; releasing it with a successful `recycle` puts it back on
`idle` (calls: one successful `recycle`, no `discard`); the next
acquire pops `idle` and returns the very same object 0 with an empty
call trace — so `create()` is invoked exactly once across
acquire → release → acquire. -/
theorem round_trip_same_instance (m : Nat) (h : 0 < m) :
    acquireIter true (initOpen m) =
      .ok 0 { isOpen := true, countAvail := m - 1, idle := [], borrowed := [0], nextId := 1 }
        [.create 0] ∧
    releaseObj true true 0
        { isOpen := true, countAvail := m - 1, idle := [], borrowed := [0], nextId := 1 } =
      { s := { isOpen := true, countAvail := m - 1, idle := [0], borrowed := [], nextId := 1 },
        calls := [.recycle 0 true], notified := true, raised := false } ∧
    acquireIter true { isOpen := true, countAvail := m - 1, idle := [0], borrowed := [], nextId := 1 } =
      .ok 0 { isOpen := true, countAvail := m - 1, idle := [], borrowed := [0], nextId := 1 } [] := by
  refine ⟨?_, ?_, ?_⟩
  · simp [acquireIter, initOpen, openPool, initState, h]
  · simp [releaseObj, List.erase]
  · simp [acquireIter]

/-- C9 witness: the round trip on a pool of `max_size = 1`. -/
theorem round_trip_same_instance_witness :
    acquireIter true (initOpen 1) =
      .ok 0 { isOpen := true, countAvail := 1 - 1, idle := [], borrowed := [0], nextId := 1 }
        [.create 0] ∧
    releaseObj true true 0
        { isOpen := true, countAvail := 1 - 1, idle := [], borrowed := [0], nextId := 1 } =
      { s := { isOpen := true, countAvail := 1 - 1, idle := [0], borrowed := [], nextId := 1 },
        calls := [.recycle 0 true], notified := true, raised := false } ∧
    acquireIter true { isOpen := true, countAvail := 1 - 1, idle := [0], borrowed := [], nextId := 1 } =
      .ok 0 { isOpen := true, countAvail := 1 - 1, idle := [], borrowed := [0], nextId := 1 } [] :=
  round_trip_same_instance 1 (by decide)

/-- C10: confirmed.  For every integer `max_size ≤ 0`, `Pool.__init__`
raises `ValueError` ("max_size must be at least 1") before any state is
initialized: no pool with non-positive capacity is ever constructed. -/
theorem init_nonpositive_value_error (n : Int) (h : n ≤ 0) :
    poolInit (some n) = .error .valueError := by
  simp [poolInit, h]

/-- C10 witness: `max_size = 0` (and below) is rejected. -/
theorem init_nonpositive_value_error_witness :
    poolInit (some 0) = .error .valueError :=
  init_nonpositive_value_error 0 (by decide)

end ObjectPool
